import Mathlib

/-! Shallow embedding of the OKX exchange-connectivity driver (src/mod.rs,
src/http.rs, src/api_structs.rs) and proofs about the behaviour its
specification claims.  Pure Rust functions become Lean functions; the
collaborators that live outside this repository (the HTTP transport, the
websocket channel, the `validate` code-to-error mapping, the clock) are
passed in as explicit arguments, so every theorem quantifies over their
possible outcomes.  `rust_decimal::Decimal` is modelled as exact rationals;
`f64` values appearing in the margin-snapshot assembly are modelled by the
`FP` type below, which carries the NaN/infinity cases the claims depend on. -/

namespace OkexDriver

/-- `rust_decimal::Decimal` modelled as an exact rational.  Decimal division
rounds to 28 significant digits; the rational model makes it exact, which is
the precision-residue-free reading the spec's round-trip property uses. -/
abbrev Decimal := ℚ

/-- Internal trading-pair identifier (`klp_types::Pair`), opaque here. -/
abbrev Pair := String

/-- Exchange order id. -/
abbrev OrderId := String

/-- Caller-supplied client order id. -/
abbrev ClientOrderId := String

/-- Exchange trade id. -/
abbrev TradeId := String

/-- Opaque exchange instrument identifier (`OkexInstrumentId`). -/
abbrev OkexInstrumentId := String

/-- Asset symbol. -/
abbrev Asset := String

/-- Order side. -/
inductive Side
  | Buy
  | Sell
deriving DecidableEq, Repr

/-- Trade liquidity flag. -/
inductive Liquidity
  | Maker
  | Taker
  | Unknown
deriving DecidableEq, Repr

/-- The `DriverError` kinds the embedded functions construct or inspect
(`dte_traits::prelude::DriverError`).  Only the variants that appear in the
three source files are modelled. -/
inductive DriverError
  | Generic (msg : String)
  | NotSupportedSymbol (symbol : String)
  | OrderNotFound
  | OrderAlreadyCancelled
  | OrderAlreadyFilled
  | HeaderValueError
  | ParseFailure (msg : String)
  | BalanceError (msg : String)
deriving DecidableEq, Repr

/-- The three idempotent terminal cancellation outcomes, exactly the errors
matched by `cancel_order_by_id` (mod.rs) and `rest_cancel_orders` (http.rs). -/
def DriverError.isIdempotentCancel : DriverError → Bool
  | .OrderNotFound => true
  | .OrderAlreadyCancelled => true
  | .OrderAlreadyFilled => true
  | _ => false

/-- Contract shape of a perpetual future (`OkexContractType`). -/
inductive OkexContractType
  | Linear
  | Inverse
deriving DecidableEq, Repr

/-- Exchange instrument (`OkexInstrument`): a perpetual future or a spot pair. -/
inductive OkexInstrument
  | FuturePerpetual (settle_asset : Asset) (contract_value_asset : Asset)
      (instrument_id : OkexInstrumentId) (contract_type : OkexContractType)
      (contract_value : Decimal)
  | Spot (base : Asset) (quote : Asset) (instrument_id : OkexInstrumentId)
deriving DecidableEq, Repr

/-- `OkexInstrument::id` from api_structs.rs. -/
def OkexInstrument.id : OkexInstrument → OkexInstrumentId
  | .Spot _ _ instrument_id => instrument_id
  | .FuturePerpetual _ _ instrument_id _ _ => instrument_id

/-- `OkexInstrument::to_exchange_size` from api_structs.rs: converts an
internal order amount to an exchange contract size. -/
def OkexInstrument.to_exchange_size (inst : OkexInstrument)
    (amount price : Decimal) : Option Decimal :=
  match inst with
  | .Spot _ _ _ => some amount
  | .FuturePerpetual _ _ _ contract_type contract_value =>
    match contract_type with
    | .Linear =>
      if contract_value = 0 then none
      else some (amount / contract_value)
    | .Inverse =>
      if contract_value = 0 then none
      else some (amount * price / contract_value)

/-- `OkexInstrument::to_internal_amount` from api_structs.rs: converts an
exchange contract size back to an internal amount. -/
def OkexInstrument.to_internal_amount (inst : OkexInstrument)
    (size price : Decimal) : Option Decimal :=
  match inst with
  | .Spot _ _ _ => some size
  | .FuturePerpetual _ _ _ contract_type contract_value =>
    match contract_type with
    | .Linear => some (size * contract_value)
    | .Inverse =>
      if price = 0 then none
      else some (size * contract_value / price)

/-- REST response envelope (`OkexRestResponse<T>` from api_structs.rs). -/
structure OkexRestResponse (T : Type) where
  code : Nat
  msg : Option String
  data : Option T
deriving DecidableEq, Repr

/-- Per-order mutation acknowledgment (`OrderResult` from api_structs.rs). -/
structure OrderResult where
  order_id : OrderId
  client_oid : ClientOrderId
  code : Nat
  msg : String
deriving DecidableEq, Repr

/-- One open order returned by the orders-pending endpoint
(`OkexPendingOrder` from api_structs.rs). -/
structure OkexPendingOrder where
  instrument_id : OkexInstrumentId
  order_id : OrderId
  client_order_id : ClientOrderId
  price : Decimal
  amount : Decimal
  side : Side
  created_at : Nat
deriving DecidableEq, Repr

/-- One trade record returned by the trade-fills endpoint
(`TransactionResult` from api_structs.rs). -/
structure TransactionResult where
  instrument_id : OkexInstrumentId
  trade_id : TradeId
  order_id : OrderId
  bill_id : String
  price : Decimal
  filled_amount : Decimal
  side : Side
  liquidity : Liquidity
  fee_currency : String
  fee : Decimal
  created_at : Int
deriving DecidableEq, Repr

/-- One account-bill record (`OkexBillResponse` from api_structs.rs).
The `type_` field is the venue's numeric bill-type code. -/
structure OkexBillResponse where
  type_ : Nat
  ts : Nat
  amount : Decimal
  price : Option Decimal
  currency : String
  fee : Option Decimal
  instrument_id : String
  order_id : Option String
  liquidity : Liquidity
  updated_at : Nat
  trade_id : Option TradeId
deriving DecidableEq, Repr

/-- Normalized open order handed to the caller (`dte_traits::RawOrder`),
restricted to the fields this driver populates. -/
structure RawOrder where
  internal_order_id : ClientOrderId
  order_id : OrderId
  pair : Pair
  side : Side
  price : Decimal
  amount : Decimal
  internal_created_at : Int
  exchange_created_at : Option Int
deriving DecidableEq, Repr

/-- Normalized trade handed to the caller (`dte_traits::RawTrade`),
restricted to the fields this driver populates. -/
structure RawTrade where
  trade_id : TradeId
  order_id : OrderId
  pair : Pair
  side : Side
  price : Decimal
  filled_amount : Decimal
  fee_amount : Option Decimal
  fee_currency : Option String
  liquidity : Liquidity
  internal_created_at : Int
  exchange_created_at : Option Int
deriving DecidableEq, Repr

/-- Funding-rate reporting record (`dte_traits::reporting::KinesisTransaction`),
restricted to the fields `to_kinesis_transaction` populates. -/
structure KinesisTransaction where
  bot_id : String
  exchange : String
  symbol : String
  trade_id : String
  order_id : String
  side : Side
  price : Decimal
  fee : Option Decimal
  fee_currency : Option String
  amount : Decimal
  filled_amount : Decimal
  liquidity : Liquidity
  date : Nat
  created_at : Nat
  base_currency : String
  quote_currency : String
  operation : String
deriving DecidableEq, Repr

/-- Modelled from the spec: the `InstrumentConverter` is implemented outside
src/ (only its call sites are in the repository).  Per section 4.1 of the
specification it is a read-only bidirectional lookup between internal pairs
and exchange instruments; it is modelled as an association list searched in
both directions. -/
structure InstrumentConverter where
  entries : List (Pair × OkexInstrument)
deriving DecidableEq, Repr

/-- Modelled from the spec: `findInstrument(pair) -> Option<Instrument>`. -/
def InstrumentConverter.find_instrument (conv : InstrumentConverter)
    (pair : Pair) : Option OkexInstrument :=
  (conv.entries.find? (fun e => e.1 == pair)).map (fun e => e.2)

/-- Modelled from the spec: `findPair(instrumentId) -> Option<Pair>`. -/
def InstrumentConverter.find_pair (conv : InstrumentConverter)
    (inst_id : OkexInstrumentId) : Option Pair :=
  (conv.entries.find? (fun e => e.2.id == inst_id)).map (fun e => e.1)

/-- `timestamp_millis_to_utc` (collaborator from dte_traits): millisecond
timestamp conversion, modelled as the always-successful identity into an
integer timestamp. -/
def timestamp_millis_to_utc (ms : Nat) : Option Int :=
  some (Int.ofNat ms)

/-- Rust `i64 as u64` cast (used on `trade.created_at`). -/
def i64_as_u64 (x : Int) : Nat :=
  ((x % (2 : Int) ^ 64 + 2 ^ 64) % 2 ^ 64).toNat

/-- `CANCEL_ORDERS_BATCH_COUNT` from mod.rs: the venue's batch-cancel limit. -/
def CANCEL_ORDERS_BATCH_COUNT : Nat := 20

/-- `ONE_DAY_IN_MILLIS` from mod.rs. -/
def ONE_DAY_IN_MILLIS : Int := 86400000

/-- One outbound cancellation side effect of the lifecycle manager: a
streaming cancel or a REST cancel for a single order id.  The embedded
`cancel_order_by_id` returns the calls it issued, in order, so the theorems
can speak about which paths were attempted. -/
inductive CancelCall
  | ws (order_id : OrderId) (inst_id : OkexInstrumentId)
  | rest (order_id : OrderId) (inst_id : OkexInstrumentId)
deriving DecidableEq, Repr

/-- `cancel_order_by_id` from mod.rs.  The websocket cancel and the REST
fallback cancel are external collaborators, passed as functions from
`(order id, instrument id)` to their outcome.  Besides the Rust return value
the embedding returns the trace of cancel calls issued. -/
def cancel_order_by_id (conv : InstrumentConverter)
    (ws_cancel rest_cancel : OrderId → OkexInstrumentId → Except DriverError Unit)
    (pair : Pair) (order_id : OrderId) :
    Except DriverError Unit × List CancelCall :=
  match conv.find_instrument pair with
  | none => (.error (.NotSupportedSymbol pair), [])
  | some inst =>
    let inst_id := inst.id
    let res := ws_cancel order_id inst_id
    match res with
    | .ok _ => (.ok (), [.ws order_id inst_id])
    | .error .OrderNotFound => (res, [.ws order_id inst_id])
    | .error .OrderAlreadyCancelled => (res, [.ws order_id inst_id])
    | .error .OrderAlreadyFilled => (res, [.ws order_id inst_id])
    | .error _ =>
      (rest_cancel order_id inst_id,
        [.ws order_id inst_id, .rest order_id inst_id])

/-- Recursion core of `chunksOfBatch`, structurally recursive on a fuel
argument so that the kernel can evaluate it; every step consumes at least
one list element, so fuel equal to the list length is always enough. -/
def chunksOfBatchGo : Nat → List α → List (List α)
  | _, [] => []
  | 0, _ :: _ => []
  | fuel + 1, a :: as =>
    (a :: as).take CANCEL_ORDERS_BATCH_COUNT ::
      chunksOfBatchGo fuel ((a :: as).drop CANCEL_ORDERS_BATCH_COUNT)

/-- Rust slice `chunks(CANCEL_ORDERS_BATCH_COUNT)`: splits a list into
consecutive chunks of at most 20 elements. -/
def chunksOfBatch (l : List α) : List (List α) :=
  chunksOfBatchGo l.length l

/-- The per-order inclusion rule of `rest_cancel_orders` (http.rs): an order
id is kept when its validation outcome is a clean success or one of the three
idempotent outcomes.  `validate` is `OrderResult::validate`, the venue
code-to-error mapping defined outside this repository, passed in abstractly. -/
def keepCancelledOrder (validate : OrderResult → Except DriverError Unit)
    (order_result : OrderResult) : Option OrderId :=
  match validate order_result with
  | .ok _ => some order_result.order_id
  | .error .OrderNotFound => some order_result.order_id
  | .error .OrderAlreadyCancelled => some order_result.order_id
  | .error .OrderAlreadyFilled => some order_result.order_id
  | .error _ => none

/-- The per-chunk contribution of `rest_cancel_orders` (http.rs): a chunk
whose request failed in transport or came back without a data envelope
contributes nothing; a decoded chunk contributes the ids passing
`keepCancelledOrder`. -/
def chunkCancelledIds (validate : OrderResult → Except DriverError Unit)
    (res : Except DriverError (OkexRestResponse (List OrderResult))) :
    Option (List OrderId) :=
  match res with
  | .ok ⟨_, _, some order_results⟩ =>
    some (order_results.filterMap (keepCancelledOrder validate))
  | .error _ => none
  | .ok ⟨_, _, none⟩ => none

/-- `rest_cancel_orders` from http.rs.  The HTTP POST of one chunk is the
external transport, passed as a function from the chunk to its response
(request-body construction is inside that collaborator).  Besides the Rust
return value the embedding returns the list of chunk requests issued. -/
def rest_cancel_orders (validate : OrderResult → Except DriverError Unit)
    (post : List OrderId → Except DriverError (OkexRestResponse (List OrderResult)))
    (order_ids : List OrderId) : List OrderId × List (List OrderId) :=
  if order_ids.isEmpty then ([], [])
  else
    let chunks := chunksOfBatch order_ids
    (((chunks.map post).filterMap (chunkCancelledIds validate)).flatten, chunks)

/-- `cancel_all` from mod.rs.  The open-orders snapshot, the websocket batch
cancel, and the REST batch cancel are external collaborators passed in; the
websocket batch cancel returns `(cancelled ids, not-cancelled ids)` on
success.  Besides the Rust return value the embedding returns the list of
REST batch-cancel calls issued (each entry is the id set of one call). -/
def cancel_all (conv : InstrumentConverter)
    (open_orders : Except DriverError (List OkexPendingOrder))
    (ws_cancel_orders :
      List OrderId → OkexInstrumentId → Except DriverError (List OrderId × List OrderId))
    (rest_batch : List OrderId → OkexInstrumentId → Except DriverError (List OrderId))
    (pair : Pair) :
    Except DriverError (List OrderId) × List (List OrderId) :=
  match conv.find_instrument pair with
  | none => (.error (.NotSupportedSymbol pair), [])
  | some inst =>
    let inst_id := inst.id
    match open_orders with
    | .error e => (.error e, [])
    | .ok orders =>
      let order_ids := orders.filterMap (fun order =>
        if order.instrument_id = inst_id then some order.order_id else none)
      if order_ids.isEmpty then (.ok [], [])
      else
        match ws_cancel_orders order_ids inst_id with
        | .ok (cancelled_order_ids, []) => (.ok cancelled_order_ids, [])
        | .ok (_, not_cancelled_order_ids) =>
          (rest_batch not_cancelled_order_ids inst_id, [not_cancelled_order_ids])
        | .error _ => (rest_batch order_ids inst_id, [order_ids])

/-- `fetch_open_orders` from mod.rs.  The REST pagination result is passed in
as the fetched list; `now` is the clock reading used when the exchange
timestamp cannot be converted. -/
def fetch_open_orders (conv : InstrumentConverter) (now : Int)
    (fetched : Except DriverError (List OkexPendingOrder)) :
    Except DriverError (List RawOrder) :=
  match fetched with
  | .error e => .error e
  | .ok orders =>
    .ok (orders.filterMap (fun order =>
      let exchange_created_at := timestamp_millis_to_utc order.created_at
      (conv.find_pair order.instrument_id).map (fun pair =>
        { internal_order_id := order.client_order_id
          order_id := order.order_id
          pair := pair
          side := order.side
          price := order.price
          amount := order.amount
          internal_created_at := exchange_created_at.getD now
          exchange_created_at := exchange_created_at })))

/-- `fetch_trades_since` from mod.rs: trades for one pair; the record's pair
field is the caller's pair and the fee is negated.  `now` is the clock
reading; `trades` is the REST fetch outcome for this instrument. -/
def fetch_trades_since (conv : InstrumentConverter) (now : Int) (pair : Pair)
    (trades : Except DriverError (List TransactionResult)) :
    Except DriverError (List RawTrade) :=
  match conv.find_instrument pair with
  | none => .error (.NotSupportedSymbol pair)
  | some _ =>
    let end_time := now
    let start_time := end_time - ONE_DAY_IN_MILLIS
    match trades with
    | .error e => .error e
    | .ok ts =>
      .ok (ts.filterMap (fun trade =>
        if start_time ≤ trade.created_at ∧ trade.created_at ≤ end_time then
          some
            { trade_id := trade.trade_id
              order_id := trade.order_id
              pair := pair
              side := trade.side
              price := trade.price
              filled_amount := trade.filled_amount
              fee_amount := some (-trade.fee)
              fee_currency := some trade.fee_currency
              liquidity := trade.liquidity
              internal_created_at := now
              exchange_created_at := timestamp_millis_to_utc (i64_as_u64 trade.created_at) }
        else none))

/-- `fetch_all_trades_since` from mod.rs: trades for all pairs; the pair is
looked up from the record's instrument id (dropping the record when absent)
and the fee is not negated. -/
def fetch_all_trades_since (conv : InstrumentConverter) (now : Int)
    (trades : Except DriverError (List TransactionResult)) :
    Except DriverError (List RawTrade) :=
  let end_time := now
  let start_time := end_time - ONE_DAY_IN_MILLIS
  match trades with
  | .error e => .error e
  | .ok ts =>
    .ok (ts.filterMap (fun trade =>
      if start_time ≤ trade.created_at ∧ trade.created_at ≤ end_time then
        (conv.find_pair trade.instrument_id).map (fun pair =>
          { trade_id := trade.trade_id
            order_id := trade.order_id
            pair := pair
            side := trade.side
            price := trade.price
            filled_amount := trade.filled_amount
            fee_amount := some trade.fee
            fee_currency := some trade.fee_currency
            liquidity := trade.liquidity
            internal_created_at := now
            exchange_created_at := timestamp_millis_to_utc (i64_as_u64 trade.created_at) })
      else none))

/-- Outcome of running a fragment of Rust that can return, error, or abort
the process (`panic` models `unwrap`/`expect` aborts). -/
inductive Outcome (α : Type)
  | ok (a : α)
  | err (e : DriverError)
  | panicked (msg : String)
deriving DecidableEq, Repr

/-- Whether an outcome is a process abort. -/
def Outcome.isPanic : Outcome α → Bool
  | .panicked _ => true
  | _ => false

/-- `OkexBillResponse::to_kinesis_transaction` from api_structs.rs.  The Rust
calls `.unwrap()` on `trade_id` and on `order_id` (in that field order),
aborting when either is absent. -/
def OkexBillResponse.to_kinesis_transaction (bill : OkexBillResponse)
    (exchange : String) (bot_id operation : String) : Outcome KinesisTransaction :=
  match bill.trade_id with
  | none => .panicked "called Option unwrap on a None value"
  | some tid =>
    match bill.order_id with
    | none => .panicked "called Option unwrap on a None value"
    | some oid =>
      .ok
        { bot_id := bot_id
          exchange := exchange
          symbol := bill.instrument_id
          trade_id := tid
          order_id := oid
          side := if (bill.fee.getD 0) < 0 then Side.Sell else Side.Buy
          price := bill.price.getD 0
          fee := bill.fee
          fee_currency := some bill.currency
          amount := bill.amount
          filled_amount := 0
          liquidity := bill.liquidity
          date := bill.updated_at
          created_at := bill.ts
          base_currency := bill.currency
          quote_currency := bill.currency
          operation := operation }

/-- The loop body of `fetch_funding_rate_transactions` (mod.rs): walk the
bills in order, converting every bill with type code 8 and propagating the
first abort. -/
def collectFundingTransactions (exchange bot_id operation : String) :
    List OkexBillResponse → Outcome (List KinesisTransaction)
  | [] => .ok []
  | bill :: rest =>
    if bill.type_ = 8 then
      match bill.to_kinesis_transaction exchange bot_id operation with
      | .panicked m => .panicked m
      | .err e => .err e
      | .ok k =>
        match collectFundingTransactions exchange bot_id operation rest with
        | .ok ks => .ok (k :: ks)
        | other => other
    else collectFundingTransactions exchange bot_id operation rest

/-- `fetch_funding_rate_transactions` from mod.rs.  The account-bills REST
fetch is the external collaborator, passed in as its outcome; the Rust calls
`.expect("No Kinesis data available")` on it, aborting on any error. -/
def fetch_funding_rate_transactions
    (bill_data : Except DriverError (List OkexBillResponse))
    (exchange bot_id operation : String) :
    Outcome (Option (List KinesisTransaction)) :=
  match bill_data with
  | .error _ => .panicked "No Kinesis data available"
  | .ok bills =>
    match collectFundingTransactions exchange bot_id operation bills with
    | .ok ks => .ok (some ks)
    | .err e => .err e
    | .panicked m => .panicked m

/-- Model of `f64` for the margin-snapshot arithmetic: a finite value (exact
rational), an infinity, or NaN.  The values entering the snapshot come from
`Decimal::to_f64`, so they are finite; infinities and NaN arise only from the
divisions below. -/
inductive FP
  | finite (q : ℚ)
  | posInf
  | negInf
  | nan
deriving DecidableEq, Repr

/-- IEEE `<=` on the `FP` model: false whenever either side is NaN. -/
def FP.ble : FP → FP → Bool
  | .nan, _ => false
  | _, .nan => false
  | .negInf, _ => true
  | _, .negInf => false
  | _, .posInf => true
  | .posInf, _ => false
  | .finite a, .finite b => decide (a ≤ b)

/-- Rust `f64::min`: if one argument is NaN the other is returned, otherwise
the smaller of the two. -/
def FP.rustMin : FP → FP → FP
  | .nan, b => b
  | a, .nan => a
  | a, b => if a.ble b then a else b

/-- IEEE division on the `FP` model for the finite operands produced by
`Decimal::to_f64`: a zero divisor yields NaN (0/0) or a signed infinity.
Cases with a non-finite operand do not occur in the embedded code and are
collapsed to NaN. -/
def FP.fdiv : FP → FP → FP
  | .finite a, .finite b =>
    if b = 0 then
      if a = 0 then .nan else if 0 < a then .posInf else .negInf
    else .finite (a / b)
  | _, _ => .nan

/-- `Decimal::to_f64`: every `rust_decimal` value (magnitude below 7.93e28)
is inside the `f64` range, so the conversion always succeeds; rounding to the
nearest `f64` is elided, which does not affect order against 1.0 after the
`min` clamp the claims are about. -/
def Decimal.to_f64 (q : Decimal) : Option FP :=
  some (.finite q)

/-- Per-asset balance-update record (`OkexBalanceUpdate` from api_structs.rs). -/
structure OkexBalanceUpdate where
  asset : Asset
  unrealized_pnl : Option Decimal
  cash_bal : Option Decimal
  avail_bal : Option Decimal
deriving DecidableEq, Repr

/-- Account-channel balance/margin telemetry (`OkexBalancesUpdate` from
api_structs.rs). -/
structure OkexBalancesUpdate where
  details : List OkexBalanceUpdate
  exchange_initial_margin : Decimal
  total_collateral : Decimal
  notional_usd : Decimal
  total_maintenance_margin : Decimal
deriving DecidableEq, Repr

/-- Derived margin snapshot (`klp_types::exchange::FuturesState`), restricted
to the fields the conversion populates. -/
structure FuturesState where
  total_collateral : FP
  available_collateral : FP
  unrealized_pnl : FP
  maintenance_margin_ratio : FP
  position_initial_margin : Option FP
  open_order_initial_margin : Option FP
  exchange_initial_margin : FP
  margin_fraction : Option FP
  open_margin_fraction : Option FP
deriving DecidableEq, Repr

/-- The `ok_or_else` wrapping of a conversion in the snapshot assembly. -/
def convertOr (o : Option FP) : Except DriverError FP :=
  match o with
  | some a => .ok a
  | none => .error (.Generic "Unable to convert Decimal to f64")

/-- `TryFrom<&OkexBalancesUpdate> for FuturesState` from api_structs.rs.
`saturating_sub` is modelled as exact subtraction (it saturates only at the
extreme `Decimal` range bounds, which the rational model has no need of). -/
def FuturesState.tryFrom (update : OkexBalancesUpdate) :
    Except DriverError FuturesState := do
  let total_position_notional ← convertOr (Decimal.to_f64 update.notional_usd)
  let total_collateral ← convertOr (Decimal.to_f64 update.total_collateral)
  let available_collateral ←
    convertOr (Decimal.to_f64 (update.total_collateral - update.exchange_initial_margin))
  let unrealized_pnl ←
    convertOr (Decimal.to_f64 (update.details.foldl
      (fun total_upl u => total_upl + u.unrealized_pnl.getD 0) 0))
  let total_maintenance_margin ←
    convertOr (Decimal.to_f64 update.total_maintenance_margin)
  let maintenance_margin_ratio :=
    (total_maintenance_margin.fdiv total_collateral).rustMin (.finite 1)
  let exchange_initial_margin ←
    convertOr (Decimal.to_f64 update.exchange_initial_margin)
  let margin_fraction :=
    some ((total_collateral.fdiv total_position_notional).rustMin (.finite 1))
  let open_margin_fraction :=
    some ((total_collateral.fdiv exchange_initial_margin).rustMin (.finite 1))
  return {
      total_collateral := total_collateral
      available_collateral := available_collateral
      unrealized_pnl := unrealized_pnl
      maintenance_margin_ratio := maintenance_margin_ratio
      position_initial_margin := none
      open_order_initial_margin := none
      exchange_initial_margin := exchange_initial_margin
      margin_fraction := margin_fraction
      open_margin_fraction := open_margin_fraction }

/-- Whether a per-order cancellation acknowledgment counts as cancelled for
`rest_cancel_orders`: a clean success or one of the three idempotent
outcomes. -/
def cancelOutcomeCounts : Except DriverError Unit → Bool
  | .ok _ => true
  | .error e => e.isIdempotentCancel

/-- Whether an optional ratio field of a margin snapshot is at most 1.0
(an absent field counts trivially). -/
def optionBleOne : Option FP → Bool
  | none => true
  | some f => f.ble (.finite 1)

/-- Concrete telemetry update exercising the snapshot assembly: initial
margin 4, collateral 2, notional 8, maintenance margin 6 (collateral smaller
than maintenance margin, so the raw quotient exceeds one). -/
def marginUpdateExample : OkexBalancesUpdate :=
  ⟨[], 4, 2, 8, 6⟩

/-- The snapshot the assembly produces from `marginUpdateExample` (the raw
maintenance-margin quotient is 6/2 = 3, clamped to 1 by the `min`; the
fields are spelled as the unevaluated arithmetic the assembly performs). -/
def marginStateExample : FuturesState :=
  ⟨.finite 2, .finite ((2 : ℚ) - 4), .finite 0,
    ((FP.finite 6).fdiv (.finite 2)).rustMin (.finite 1), none, none, .finite 4,
    some (((FP.finite 2).fdiv (.finite 8)).rustMin (.finite 1)),
    some (((FP.finite 2).fdiv (.finite 4)).rustMin (.finite 1))⟩

/-- Concrete account bill with type code 8 and an absent trade id. -/
def fundingBillExample : OkexBillResponse :=
  ⟨8, 0, 1, none, "USDT", none, "BTC-USDT-SWAP", some "o1", .Unknown, 0, none⟩

theorem chunksOfBatchGo_flatten (fuel : Nat) :
    ∀ l : List α, l.length ≤ fuel → (chunksOfBatchGo fuel l).flatten = l := by
  induction fuel with
  | zero =>
    intro l hl
    cases l with
    | nil => rfl
    | cons a as => simp at hl
  | succ fuel ih =>
    intro l hl
    cases l with
    | nil => rfl
    | cons a as =>
      have hd : ((a :: as).drop CANCEL_ORDERS_BATCH_COUNT).length ≤ fuel := by
        simp only [List.length_drop, List.length_cons, CANCEL_ORDERS_BATCH_COUNT]
        simp only [List.length_cons] at hl
        omega
      rw [chunksOfBatchGo, List.flatten_cons, ih _ hd, List.take_append_drop]

theorem chunksOfBatch_flatten (l : List α) : (chunksOfBatch l).flatten = l :=
  chunksOfBatchGo_flatten l.length l le_rfl

theorem chunksOfBatchGo_mem_length_le (fuel : Nat) :
    ∀ l c : List α, c ∈ chunksOfBatchGo fuel l → c.length ≤ CANCEL_ORDERS_BATCH_COUNT := by
  induction fuel with
  | zero =>
    intro l c hc
    cases l <;> simp [chunksOfBatchGo] at hc
  | succ fuel ih =>
    intro l c hc
    cases l with
    | nil => simp [chunksOfBatchGo] at hc
    | cons a as =>
      rw [chunksOfBatchGo] at hc
      rcases List.mem_cons.mp hc with h | h
      · subst h
        simp only [List.length_take]
        exact Nat.min_le_left _ _
      · exact ih _ _ h

theorem chunksOfBatch_mem_length_le (l c : List α) :
    c ∈ chunksOfBatch l → c.length ≤ CANCEL_ORDERS_BATCH_COUNT :=
  chunksOfBatchGo_mem_length_le l.length l c

theorem keepCancelledOrder_eq_some_iff
    (validate : OrderResult → Except DriverError Unit)
    (r : OrderResult) (oid : OrderId) :
    keepCancelledOrder validate r = some oid ↔
      (r.order_id = oid ∧ cancelOutcomeCounts (validate r) = true) := by
  unfold keepCancelledOrder cancelOutcomeCounts
  cases hv : validate r with
  | ok u => simp
  | error e => cases e <;> simp [DriverError.isIdempotentCancel]

theorem chunkCancelledIds_eq_some_iff
    (validate : OrderResult → Except DriverError Unit)
    (res : Except DriverError (OkexRestResponse (List OrderResult)))
    (l : List OrderId) :
    chunkCancelledIds validate res = some l ↔
      ∃ code msg rs, res = .ok ⟨code, msg, some rs⟩ ∧
        l = rs.filterMap (keepCancelledOrder validate) := by
  cases res with
  | error e => simp [chunkCancelledIds]
  | ok resp =>
    obtain ⟨code, msg, data⟩ := resp
    cases data with
    | none => simp [chunkCancelledIds]
    | some rs =>
      simp only [chunkCancelledIds, Option.some.injEq, Except.ok.injEq,
        OkexRestResponse.mk.injEq]
      constructor
      · intro h
        exact ⟨code, msg, rs, ⟨rfl, rfl, rfl⟩, h.symm⟩
      · rintro ⟨c, m, rs2, ⟨rfl, rfl, h2⟩, rfl⟩
        rw [h2]

theorem mem_rest_cancel_orders_iff
    (validate : OrderResult → Except DriverError Unit)
    (post : List OrderId → Except DriverError (OkexRestResponse (List OrderResult)))
    (order_ids : List OrderId) (h : order_ids ≠ []) (oid : OrderId) :
    oid ∈ (rest_cancel_orders validate post order_ids).1 ↔
      ∃ chunk ∈ chunksOfBatch order_ids, ∃ code msg rs,
        post chunk = .ok ⟨code, msg, some rs⟩ ∧
        ∃ r ∈ rs, r.order_id = oid ∧ cancelOutcomeCounts (validate r) = true := by
  have hne : order_ids.isEmpty = false := by
    cases order_ids with
    | nil => exact absurd rfl h
    | cons a as => rfl
  rw [rest_cancel_orders]
  simp only [hne, Bool.false_eq_true, if_false, List.mem_flatten,
    List.mem_filterMap, List.mem_map]
  constructor
  · rintro ⟨l, ⟨x, ⟨chunk, hchunk, rfl⟩, hf⟩, hoid⟩
    rw [chunkCancelledIds_eq_some_iff] at hf
    obtain ⟨code, msg, rs, hpost, rfl⟩ := hf
    rw [List.mem_filterMap] at hoid
    obtain ⟨r, hr, hkeep⟩ := hoid
    rw [keepCancelledOrder_eq_some_iff] at hkeep
    exact ⟨chunk, hchunk, code, msg, rs, hpost, r, hr, hkeep.1, hkeep.2⟩
  · rintro ⟨chunk, hchunk, code, msg, rs, hpost, r, hr, hoid, hcount⟩
    refine ⟨rs.filterMap (keepCancelledOrder validate),
      ⟨post chunk, ⟨chunk, hchunk, rfl⟩, ?_⟩, ?_⟩
    · rw [chunkCancelledIds_eq_some_iff]
      exact ⟨code, msg, rs, hpost, rfl⟩
    · rw [List.mem_filterMap]
      exact ⟨r, hr, (keepCancelledOrder_eq_some_iff validate r oid).mpr ⟨hoid, hcount⟩⟩

/-- C5: `to_exchange_size` on a Linear or Inverse derivative with zero
contract value returns `none`, and `to_internal_amount` on an Inverse
derivative with zero price returns `none`; every zero-divisor case is an
absent value, never a numeric exception (the embedded functions are total). -/
theorem conversion_zero_divisor_absent (sa cva : Asset) (iid : OkexInstrumentId)
    (ct : OkexContractType) (c amount size price : Decimal) :
    (OkexInstrument.FuturePerpetual sa cva iid ct 0).to_exchange_size amount price = none
  ∧ (OkexInstrument.FuturePerpetual sa cva iid .Inverse c).to_internal_amount size 0
      = none := by
  constructor
  · cases ct <;> simp [OkexInstrument.to_exchange_size]
  · simp [OkexInstrument.to_internal_amount]

/-- C6: for every Linear derivative with nonzero contract value, converting
an internal amount to an exchange size and back returns the amount exactly
(the rational model carries no rounding residue), and `to_exchange_size` is
absent exactly when the contract value is zero. -/
theorem linear_conversion_round_trip (sa cva : Asset) (iid : OkexInstrumentId)
    (c amount price : Decimal) (hc : c ≠ 0) :
    (∃ size,
      (OkexInstrument.FuturePerpetual sa cva iid .Linear c).to_exchange_size amount price
        = some size
      ∧ (OkexInstrument.FuturePerpetual sa cva iid .Linear c).to_internal_amount size price
        = some amount)
  ∧ ∀ c' : Decimal,
      (OkexInstrument.FuturePerpetual sa cva iid .Linear c').to_exchange_size amount price
          = none
        ↔ c' = 0 := by
  constructor
  · refine ⟨amount / c, ?_, ?_⟩
    · simp [OkexInstrument.to_exchange_size, hc]
    · simp [OkexInstrument.to_internal_amount, div_mul_cancel₀ amount hc]
  · intro c'
    by_cases h : c' = 0 <;> simp [OkexInstrument.to_exchange_size, h]

theorem linear_conversion_round_trip_witness :
    ((1 : Decimal) / 10 ≠ 0)
  ∧ ((∃ size,
      (OkexInstrument.FuturePerpetual "usdt" "eth" "ETH-USDT-SWAP" .Linear (1 / 10)).to_exchange_size
          (1 / 10000) 1671 = some size
      ∧ (OkexInstrument.FuturePerpetual "usdt" "eth" "ETH-USDT-SWAP" .Linear (1 / 10)).to_internal_amount
          size 1671 = some (1 / 10000))
    ∧ ∀ c' : Decimal,
        (OkexInstrument.FuturePerpetual "usdt" "eth" "ETH-USDT-SWAP" .Linear c').to_exchange_size
            (1 / 10000) 1671 = none
          ↔ c' = 0) :=
  ⟨by simp,
    linear_conversion_round_trip "usdt" "eth" "ETH-USDT-SWAP" (1 / 10) (1 / 10000) 1671
      (by simp)⟩

/-- C2: on a supported pair `cancel_order_by_id` attempts the streaming
cancel first; an idempotent streaming error is returned exactly as-is with
no REST fallback; a streaming success issues no fallback; any other
streaming error issues exactly one REST fallback cancel for the same order
id and returns the fallback's result. -/
theorem cancel_by_id_streaming_first_single_fallback
    (conv : InstrumentConverter)
    (ws_cancel rest_cancel : OrderId → OkexInstrumentId → Except DriverError Unit)
    (pair : Pair) (order_id : OrderId) (inst : OkexInstrument)
    (hfind : conv.find_instrument pair = some inst) :
    (ws_cancel order_id inst.id = .ok () →
      cancel_order_by_id conv ws_cancel rest_cancel pair order_id
        = (.ok (), [.ws order_id inst.id]))
  ∧ (∀ e : DriverError, e.isIdempotentCancel = true →
      ws_cancel order_id inst.id = .error e →
      cancel_order_by_id conv ws_cancel rest_cancel pair order_id
        = (.error e, [.ws order_id inst.id]))
  ∧ (∀ e : DriverError, e.isIdempotentCancel = false →
      ws_cancel order_id inst.id = .error e →
      cancel_order_by_id conv ws_cancel rest_cancel pair order_id
        = (rest_cancel order_id inst.id,
            [.ws order_id inst.id, .rest order_id inst.id])) := by
  refine ⟨fun hw => ?_, fun e he hw => ?_, fun e he hw => ?_⟩
  · simp [cancel_order_by_id, hfind, hw]
  · cases e <;> simp_all [cancel_order_by_id, DriverError.isIdempotentCancel]
  · cases e <;> simp_all [cancel_order_by_id, DriverError.isIdempotentCancel]

theorem cancel_by_id_streaming_first_single_fallback_witness :
    (InstrumentConverter.mk
        [("BTCUSDT", OkexInstrument.Spot "BTC" "USDT" "BTC-USDT")]).find_instrument "BTCUSDT"
      = some (OkexInstrument.Spot "BTC" "USDT" "BTC-USDT")
  ∧ DriverError.OrderAlreadyFilled.isIdempotentCancel = true
  ∧ cancel_order_by_id
      (InstrumentConverter.mk [("BTCUSDT", OkexInstrument.Spot "BTC" "USDT" "BTC-USDT")])
      (fun _ _ => .error .OrderAlreadyFilled) (fun _ _ => .ok ()) "BTCUSDT" "o1"
      = (.error .OrderAlreadyFilled, [.ws "o1" "BTC-USDT"]) :=
  ⟨rfl, rfl,
    (cancel_by_id_streaming_first_single_fallback
      (InstrumentConverter.mk [("BTCUSDT", OkexInstrument.Spot "BTC" "USDT" "BTC-USDT")])
      (fun _ _ => .error .OrderAlreadyFilled) (fun _ _ => .ok ()) "BTCUSDT" "o1"
      (OkexInstrument.Spot "BTC" "USDT" "BTC-USDT") rfl).2.1
      .OrderAlreadyFilled rfl rfl⟩

/-- C1 counterexample: a streaming cancel that reports `OrderNotFound` is
returned by `cancel_order_by_id` as that same error, not absorbed into an
`Ok` result, refuting the claim at this concrete input. -/
theorem cancel_by_id_idempotent_error_not_absorbed :
    (cancel_order_by_id
      (InstrumentConverter.mk [("BTCUSDT", OkexInstrument.Spot "BTC" "USDT" "BTC-USDT")])
      (fun _ _ => .error .OrderNotFound) (fun _ _ => .ok ()) "BTCUSDT" "o1").1
      = .error DriverError.OrderNotFound
  ∧ (cancel_order_by_id
      (InstrumentConverter.mk [("BTCUSDT", OkexInstrument.Spot "BTC" "USDT" "BTC-USDT")])
      (fun _ _ => .error .OrderNotFound) (fun _ _ => .ok ()) "BTCUSDT" "o1").1
      ≠ .ok () := by
  refine ⟨rfl, fun hcontra => ?_⟩
  exact Except.noConfusion hcontra

/-- C1 (amended): the three idempotent cancellation outcomes from the
streaming path are returned by `cancel_order_by_id` exactly as they are
(as errors, with no REST fallback); batch cancellation counts an order id
with an idempotent per-order outcome as cancelled; a non-idempotent
streaming error triggers the single REST fallback, whose result is what
propagates to the caller. -/
theorem idempotent_cancel_propagation_policy :
    (∀ (conv : InstrumentConverter)
        (ws_cancel rest_cancel : OrderId → OkexInstrumentId → Except DriverError Unit)
        (pair : Pair) (order_id : OrderId) (inst : OkexInstrument) (e : DriverError),
      conv.find_instrument pair = some inst →
      e.isIdempotentCancel = true →
      ws_cancel order_id inst.id = .error e →
      (cancel_order_by_id conv ws_cancel rest_cancel pair order_id).1 = .error e)
  ∧ (∀ (validate : OrderResult → Except DriverError Unit)
        (post : List OrderId → Except DriverError (OkexRestResponse (List OrderResult)))
        (order_ids : List OrderId) (chunk : List OrderId)
        (code : Nat) (msg : Option String) (rs : List OrderResult)
        (r : OrderResult) (e : DriverError),
      order_ids ≠ [] →
      chunk ∈ chunksOfBatch order_ids →
      post chunk = .ok ⟨code, msg, some rs⟩ →
      r ∈ rs →
      validate r = .error e →
      e.isIdempotentCancel = true →
      r.order_id ∈ (rest_cancel_orders validate post order_ids).1)
  ∧ (∀ (conv : InstrumentConverter)
        (ws_cancel rest_cancel : OrderId → OkexInstrumentId → Except DriverError Unit)
        (pair : Pair) (order_id : OrderId) (inst : OkexInstrument) (e : DriverError),
      conv.find_instrument pair = some inst →
      e.isIdempotentCancel = false →
      ws_cancel order_id inst.id = .error e →
      (cancel_order_by_id conv ws_cancel rest_cancel pair order_id).1
        = rest_cancel order_id inst.id) := by
  refine ⟨?_, ?_, ?_⟩
  · intro conv ws_cancel rest_cancel pair order_id inst e hfind he hw
    cases e <;> simp_all [cancel_order_by_id, DriverError.isIdempotentCancel]
  · intro validate post order_ids chunk code msg rs r e hne hchunk hpost hr hv he
    rw [mem_rest_cancel_orders_iff validate post order_ids hne]
    refine ⟨chunk, hchunk, code, msg, rs, hpost, r, hr, rfl, ?_⟩
    rw [hv]
    simpa [cancelOutcomeCounts] using he
  · intro conv ws_cancel rest_cancel pair order_id inst e hfind he hw
    cases e <;> simp_all [cancel_order_by_id, DriverError.isIdempotentCancel]

theorem idempotent_cancel_propagation_policy_witness :
    (InstrumentConverter.mk
        [("BTCUSDT", OkexInstrument.Spot "BTC" "USDT" "BTC-USDT")]).find_instrument "BTCUSDT"
      = some (OkexInstrument.Spot "BTC" "USDT" "BTC-USDT")
  ∧ DriverError.OrderAlreadyCancelled.isIdempotentCancel = true
  ∧ (cancel_order_by_id
      (InstrumentConverter.mk [("BTCUSDT", OkexInstrument.Spot "BTC" "USDT" "BTC-USDT")])
      (fun _ _ => .error .OrderAlreadyCancelled) (fun _ _ => .ok ()) "BTCUSDT" "o1").1
      = .error .OrderAlreadyCancelled
  ∧ "o1" ∈ (rest_cancel_orders (fun _ => .error .OrderAlreadyFilled)
      (fun _ => .ok ⟨0, none, some [⟨"o1", "c1", 51402, "filled"⟩]⟩) ["o1"]).1 :=
  ⟨rfl, rfl,
    idempotent_cancel_propagation_policy.1
      (InstrumentConverter.mk [("BTCUSDT", OkexInstrument.Spot "BTC" "USDT" "BTC-USDT")])
      (fun _ _ => .error .OrderAlreadyCancelled) (fun _ _ => .ok ()) "BTCUSDT" "o1"
      (OkexInstrument.Spot "BTC" "USDT" "BTC-USDT") .OrderAlreadyCancelled rfl rfl rfl,
    idempotent_cancel_propagation_policy.2.1
      (fun _ => .error .OrderAlreadyFilled)
      (fun _ => .ok ⟨0, none, some [⟨"o1", "c1", 51402, "filled"⟩]⟩) ["o1"] ["o1"]
      0 none [⟨"o1", "c1", 51402, "filled"⟩] ⟨"o1", "c1", 51402, "filled"⟩
      .OrderAlreadyFilled (by decide) (by decide) rfl (by decide) rfl rfl⟩

/-- C3: on a supported pair `cancel_all` returns an empty list with no cancel
call when no open order matches the instrument; with a nonempty matching id
set, a fully successful streaming batch cancel returns the cancelled ids
with no REST call, a partial success issues one REST batch cancel for
exactly the unresolved remainder, and a streaming error issues one REST
batch cancel for the entire original id set. -/
theorem cancel_all_fallback_policy (conv : InstrumentConverter)
    (inst : OkexInstrument) (orders : List OkexPendingOrder)
    (ws_batch : List OrderId → OkexInstrumentId →
      Except DriverError (List OrderId × List OrderId))
    (rest_batch : List OrderId → OkexInstrumentId → Except DriverError (List OrderId))
    (pair : Pair) (order_ids : List OrderId)
    (hfind : conv.find_instrument pair = some inst)
    (hids : order_ids = orders.filterMap (fun order =>
      if order.instrument_id = inst.id then some order.order_id else none)) :
    (order_ids = [] →
      cancel_all conv (.ok orders) ws_batch rest_batch pair = (.ok [], []))
  ∧ (order_ids ≠ [] →
      (∀ cancelled, ws_batch order_ids inst.id = .ok (cancelled, []) →
        cancel_all conv (.ok orders) ws_batch rest_batch pair = (.ok cancelled, []))
    ∧ (∀ cancelled nc, nc ≠ [] →
        ws_batch order_ids inst.id = .ok (cancelled, nc) →
        cancel_all conv (.ok orders) ws_batch rest_batch pair
          = (rest_batch nc inst.id, [nc]))
    ∧ (∀ e, ws_batch order_ids inst.id = .error e →
        cancel_all conv (.ok orders) ws_batch rest_batch pair
          = (rest_batch order_ids inst.id, [order_ids]))) := by
  subst hids
  constructor
  · intro h
    simp [cancel_all, hfind, h]
  · intro hne
    obtain ⟨a, as, hcons⟩ := List.exists_cons_of_ne_nil hne
    refine ⟨fun cancelled hws => ?_, fun cancelled nc hnc hws => ?_, fun e hws => ?_⟩
    · rw [hcons] at hws
      simp [cancel_all, hfind, hcons, hws]
    · obtain ⟨n0, ns, rfl⟩ := List.exists_cons_of_ne_nil hnc
      rw [hcons] at hws
      simp [cancel_all, hfind, hcons, hws]
    · rw [hcons] at hws
      simp [cancel_all, hfind, hcons, hws]

theorem cancel_all_fallback_policy_witness :
    (["o1"] : List OrderId) ≠ []
  ∧ cancel_all
      (InstrumentConverter.mk [("BTCUSDT", OkexInstrument.Spot "BTC" "USDT" "BTC-USDT")])
      (.ok [⟨"BTC-USDT", "o1", "c1", 1, 1, .Buy, 0⟩])
      (fun _ _ => .error (.Generic "ws down"))
      (fun ids _ => .ok ids) "BTCUSDT"
      = (.ok ["o1"], [["o1"]]) :=
  ⟨by decide,
    ((cancel_all_fallback_policy
      (InstrumentConverter.mk [("BTCUSDT", OkexInstrument.Spot "BTC" "USDT" "BTC-USDT")])
      (OkexInstrument.Spot "BTC" "USDT" "BTC-USDT")
      [⟨"BTC-USDT", "o1", "c1", 1, 1, .Buy, 0⟩]
      (fun _ _ => .error (.Generic "ws down")) (fun ids _ => .ok ids)
      "BTCUSDT" ["o1"] rfl rfl).2 (by decide)).2.2 (.Generic "ws down") rfl⟩

/-- C4: `rest_cancel_orders` on an empty id list returns an empty result
with no request issued; on a nonempty list it issues one request per chunk
of at most 20 ids covering the whole list, and an order id appears in the
result exactly when some chunk's request decoded successfully and contains
a per-order acknowledgment for that id whose status is a clean success or
one of the three idempotent outcomes; a failed or data-less chunk
contributes nothing without affecting the other chunks. -/
theorem rest_batch_cancel_chunking_policy
    (validate : OrderResult → Except DriverError Unit)
    (post : List OrderId → Except DriverError (OkexRestResponse (List OrderResult)))
    (order_ids : List OrderId) :
    rest_cancel_orders validate post [] = ([], [])
  ∧ (order_ids ≠ [] →
      (rest_cancel_orders validate post order_ids).2 = chunksOfBatch order_ids
      ∧ (chunksOfBatch order_ids).flatten = order_ids
      ∧ (∀ chunk ∈ chunksOfBatch order_ids,
          chunk.length ≤ CANCEL_ORDERS_BATCH_COUNT)
      ∧ ∀ oid : OrderId,
          oid ∈ (rest_cancel_orders validate post order_ids).1 ↔
            ∃ chunk ∈ chunksOfBatch order_ids, ∃ code msg rs,
              post chunk = .ok ⟨code, msg, some rs⟩ ∧
              ∃ r ∈ rs, r.order_id = oid ∧
                cancelOutcomeCounts (validate r) = true) := by
  refine ⟨rfl, fun hne => ⟨?_, chunksOfBatch_flatten order_ids,
    fun chunk hc => chunksOfBatch_mem_length_le order_ids chunk hc,
    fun oid => mem_rest_cancel_orders_iff validate post order_ids hne oid⟩⟩
  have hE : order_ids.isEmpty = false := by
    cases order_ids with
    | nil => exact absurd rfl hne
    | cons a as => rfl
  simp [rest_cancel_orders, hE]

theorem rest_batch_cancel_chunking_policy_witness :
    (["o1"] : List OrderId) ≠ []
  ∧ (rest_cancel_orders (fun _ => Except.ok ())
      (fun _ => Except.ok ⟨0, none, some [⟨"o1", "c1", 0, ""⟩]⟩) ["o1"]).2
      = chunksOfBatch ["o1"] :=
  ⟨by decide,
    ((rest_batch_cancel_chunking_policy (fun _ => Except.ok ())
      (fun _ => Except.ok ⟨0, none, some [⟨"o1", "c1", 0, ""⟩]⟩) ["o1"]).2
      (by decide)).1⟩

/-- C7 counterexample: a fetched open order and a fetched trade whose
instrument id has no mapped pair are silently dropped — both operations
return an empty `Ok` result instead of surfacing a symbol-not-supported
error, refuting the claim at this concrete input. -/
theorem fetch_unmapped_record_silently_dropped :
    fetch_open_orders (InstrumentConverter.mk []) 0
      (.ok [⟨"FOO-BAR", "o1", "c1", 1, 1, .Buy, 0⟩]) = .ok []
  ∧ fetch_all_trades_since (InstrumentConverter.mk []) 0
      (.ok [⟨"FOO-BAR", "t1", "o1", "b1", 1, 1, .Buy, .Taker, "USDT", 1, 0⟩])
      = .ok [] :=
  ⟨rfl, rfl⟩

/-- C7 (amended): a fetched record whose instrument id has no mapped pair is
silently skipped by `fetch_open_orders` and `fetch_all_trades_since` — the
result is as if the record were absent and no error is surfaced — while
operations taking the pair as an argument (here `cancel_order_by_id`)
surface `NotSupportedSymbol` for an unsupported pair. -/
theorem fetch_unmapped_record_skip_policy (conv : InstrumentConverter)
    (now : Int) (order : OkexPendingOrder) (orders : List OkexPendingOrder)
    (trade : TransactionResult) (trades : List TransactionResult)
    (pair : Pair)
    (ws_cancel rest_cancel : OrderId → OkexInstrumentId → Except DriverError Unit)
    (order_id : OrderId)
    (hord : conv.find_pair order.instrument_id = none)
    (htr : conv.find_pair trade.instrument_id = none)
    (hpair : conv.find_instrument pair = none) :
    fetch_open_orders conv now (.ok (order :: orders))
      = fetch_open_orders conv now (.ok orders)
  ∧ fetch_all_trades_since conv now (.ok (trade :: trades))
      = fetch_all_trades_since conv now (.ok trades)
  ∧ (∃ l, fetch_open_orders conv now (.ok (order :: orders)) = .ok l)
  ∧ (∃ l, fetch_all_trades_since conv now (.ok (trade :: trades)) = .ok l)
  ∧ (cancel_order_by_id conv ws_cancel rest_cancel pair order_id).1
      = .error (.NotSupportedSymbol pair) := by
  refine ⟨?_, ?_, ⟨_, rfl⟩, ⟨_, rfl⟩, ?_⟩
  · simp [fetch_open_orders, hord]
  · by_cases ht : now - ONE_DAY_IN_MILLIS ≤ trade.created_at ∧ trade.created_at ≤ now <;>
      simp [fetch_all_trades_since, htr, ht]
  · simp [cancel_order_by_id, hpair]

theorem fetch_unmapped_record_skip_policy_witness :
    (InstrumentConverter.mk
        [("BTCUSDT", OkexInstrument.Spot "BTC" "USDT" "BTC-USDT")]).find_pair "FOO-BAR"
      = none
  ∧ fetch_open_orders
      (InstrumentConverter.mk [("BTCUSDT", OkexInstrument.Spot "BTC" "USDT" "BTC-USDT")]) 0
      (.ok [⟨"FOO-BAR", "o1", "c1", 1, 1, .Buy, 0⟩])
      = fetch_open_orders
        (InstrumentConverter.mk [("BTCUSDT", OkexInstrument.Spot "BTC" "USDT" "BTC-USDT")]) 0
        (.ok []) :=
  ⟨rfl,
    (fetch_unmapped_record_skip_policy
      (InstrumentConverter.mk [("BTCUSDT", OkexInstrument.Spot "BTC" "USDT" "BTC-USDT")]) 0
      ⟨"FOO-BAR", "o1", "c1", 1, 1, .Buy, 0⟩ []
      ⟨"FOO-BAR", "t1", "o1", "b1", 1, 1, .Buy, .Taker, "USDT", 1, 0⟩ []
      "ETHUSDT" (fun _ _ => .ok ()) (fun _ _ => .ok ()) "o1"
      rfl rfl rfl).1⟩

theorem FP.rustMin_ble_one (x : FP) :
    (x.rustMin (.finite 1)).ble (.finite 1) = true := by
  cases x with
  | nan => simp [FP.rustMin, FP.ble]
  | posInf => simp [FP.rustMin, FP.ble]
  | negInf => simp [FP.rustMin, FP.ble]
  | finite q => by_cases hq : q ≤ 1 <;> simp [FP.rustMin, FP.ble, hq]

/-- C8: every margin snapshot the balance assembly produces has its
maintenance-margin ratio, margin fraction, and open-margin fraction at most
1.0, whatever the input magnitudes (including zero, negative, or
smaller-than-maintenance-margin collateral, where the raw quotient is an
infinity, NaN, or above one before the clamp). -/
theorem margin_ratios_capped_at_one (u : OkexBalancesUpdate) (st : FuturesState)
    (h : FuturesState.tryFrom u = .ok st) :
    st.maintenance_margin_ratio.ble (.finite 1) = true
  ∧ optionBleOne st.margin_fraction = true
  ∧ optionBleOne st.open_margin_fraction = true := by
  injection h with hst
  subst hst
  exact ⟨FP.rustMin_ble_one _, FP.rustMin_ble_one _, FP.rustMin_ble_one _⟩

theorem margin_ratios_capped_at_one_witness :
    FuturesState.tryFrom marginUpdateExample = .ok marginStateExample
  ∧ (marginStateExample.maintenance_margin_ratio.ble (.finite 1) = true
    ∧ optionBleOne marginStateExample.margin_fraction = true
    ∧ optionBleOne marginStateExample.open_margin_fraction = true) :=
  ⟨rfl, margin_ratios_capped_at_one marginUpdateExample marginStateExample rfl⟩

/-- C9: for the same exchange trade record inside the last-day window,
`fetch_trades_since` reports the fee negated while `fetch_all_trades_since`
reports it unnegated, so the two trade-history operations return opposite
fee signs for any trade with nonzero fee. -/
theorem trade_fee_sign_asymmetry (conv : InstrumentConverter) (now : Int)
    (pair p : Pair) (inst : OkexInstrument) (trade : TransactionResult)
    (hfind : conv.find_instrument pair = some inst)
    (hpair : conv.find_pair trade.instrument_id = some p)
    (h1 : now - ONE_DAY_IN_MILLIS ≤ trade.created_at)
    (h2 : trade.created_at ≤ now) :
    ∃ r1 r2 : RawTrade,
      fetch_trades_since conv now pair (.ok [trade]) = .ok [r1]
      ∧ fetch_all_trades_since conv now (.ok [trade]) = .ok [r2]
      ∧ r1.trade_id = trade.trade_id ∧ r2.trade_id = trade.trade_id
      ∧ r1.fee_amount = some (-trade.fee)
      ∧ r2.fee_amount = some trade.fee
      ∧ (∀ x y : Decimal,
          r1.fee_amount = some x → r2.fee_amount = some y → x = -y) := by
  refine
    ⟨{ trade_id := trade.trade_id, order_id := trade.order_id, pair := pair,
        side := trade.side, price := trade.price,
        filled_amount := trade.filled_amount,
        fee_amount := some (-trade.fee), fee_currency := some trade.fee_currency,
        liquidity := trade.liquidity, internal_created_at := now,
        exchange_created_at := timestamp_millis_to_utc (i64_as_u64 trade.created_at) },
      { trade_id := trade.trade_id, order_id := trade.order_id, pair := p,
        side := trade.side, price := trade.price,
        filled_amount := trade.filled_amount,
        fee_amount := some trade.fee, fee_currency := some trade.fee_currency,
        liquidity := trade.liquidity, internal_created_at := now,
        exchange_created_at := timestamp_millis_to_utc (i64_as_u64 trade.created_at) },
      ?_, ?_, rfl, rfl, rfl, rfl, ?_⟩
  · simp only [fetch_trades_since, hfind]
    rw [List.filterMap_cons, if_pos ⟨h1, h2⟩]
    rfl
  · simp only [fetch_all_trades_since]
    rw [List.filterMap_cons, if_pos ⟨h1, h2⟩, hpair]
    rfl
  · intro x y hx hy
    rw [Option.some.injEq] at hx hy
    subst hx
    subst hy
    rfl

theorem trade_fee_sign_asymmetry_witness :
    (InstrumentConverter.mk
        [("BTCUSDT", OkexInstrument.Spot "BTC" "USDT" "BTC-USDT")]).find_instrument "BTCUSDT"
      = some (OkexInstrument.Spot "BTC" "USDT" "BTC-USDT")
  ∧ (InstrumentConverter.mk
        [("BTCUSDT", OkexInstrument.Spot "BTC" "USDT" "BTC-USDT")]).find_pair "BTC-USDT"
      = some "BTCUSDT"
  ∧ ((0 : Int) - ONE_DAY_IN_MILLIS ≤ 0 ∧ (0 : Int) ≤ 0)
  ∧ ∃ r1 r2 : RawTrade,
      fetch_trades_since
          (InstrumentConverter.mk [("BTCUSDT", OkexInstrument.Spot "BTC" "USDT" "BTC-USDT")])
          0 "BTCUSDT"
          (.ok [⟨"BTC-USDT", "t1", "o1", "b1", 2, 3, .Buy, .Taker, "USDT", 5, 0⟩])
        = .ok [r1]
      ∧ fetch_all_trades_since
          (InstrumentConverter.mk [("BTCUSDT", OkexInstrument.Spot "BTC" "USDT" "BTC-USDT")])
          0
          (.ok [⟨"BTC-USDT", "t1", "o1", "b1", 2, 3, .Buy, .Taker, "USDT", 5, 0⟩])
        = .ok [r2]
      ∧ r1.trade_id = "t1" ∧ r2.trade_id = "t1"
      ∧ r1.fee_amount = some (-(5 : Decimal))
      ∧ r2.fee_amount = some (5 : Decimal)
      ∧ (∀ x y : Decimal,
          r1.fee_amount = some x → r2.fee_amount = some y → x = -y) :=
  ⟨rfl, rfl, ⟨by decide, by decide⟩,
    trade_fee_sign_asymmetry
      (InstrumentConverter.mk [("BTCUSDT", OkexInstrument.Spot "BTC" "USDT" "BTC-USDT")])
      0 "BTCUSDT" "BTCUSDT" (OkexInstrument.Spot "BTC" "USDT" "BTC-USDT")
      ⟨"BTC-USDT", "t1", "o1", "b1", 2, 3, .Buy, .Taker, "USDT", 5, 0⟩
      rfl rfl (by decide) (by decide)⟩

theorem to_kinesis_transaction_ne_err (bill : OkexBillResponse)
    (exchange bot_id operation : String) (e : DriverError) :
    bill.to_kinesis_transaction exchange bot_id operation ≠ .err e := by
  unfold OkexBillResponse.to_kinesis_transaction
  cases htid : bill.trade_id with
  | none => simp
  | some tid =>
    cases hoid : bill.order_id with
    | none => simp
    | some oid => simp

theorem collectFundingTransactions_panics (exchange bot_id operation : String)
    (bill : OkexBillResponse) (htype : bill.type_ = 8)
    (hmiss : bill.trade_id = none ∨ bill.order_id = none) :
    ∀ bills : List OkexBillResponse, bill ∈ bills →
      (collectFundingTransactions exchange bot_id operation bills).isPanic = true := by
  have hk : bill.to_kinesis_transaction exchange bot_id operation
      = .panicked "called Option unwrap on a None value" := by
    rcases hmiss with hm | hm
    · simp [OkexBillResponse.to_kinesis_transaction, hm]
    · cases htid : bill.trade_id with
      | none => simp [OkexBillResponse.to_kinesis_transaction, htid]
      | some tid => simp [OkexBillResponse.to_kinesis_transaction, htid, hm]
  intro bills
  induction bills with
  | nil =>
    intro h
    cases h
  | cons b rest ih =>
    intro hmem
    rcases List.mem_cons.mp hmem with heq | hmem2
    · subst heq
      simp [collectFundingTransactions, htype, hk, Outcome.isPanic]
    · by_cases hb : b.type_ = 8
      · cases hkb : b.to_kinesis_transaction exchange bot_id operation with
        | panicked m =>
          simp [collectFundingTransactions, hb, hkb, Outcome.isPanic]
        | err e2 =>
          exact absurd hkb (to_kinesis_transaction_ne_err b exchange bot_id operation e2)
        | ok k =>
          have hrest := ih hmem2
          cases hcr : collectFundingTransactions exchange bot_id operation rest with
          | ok ks =>
            rw [hcr] at hrest
            simp [Outcome.isPanic] at hrest
          | err e2 =>
            rw [hcr] at hrest
            simp [Outcome.isPanic] at hrest
          | panicked m =>
            simp [collectFundingTransactions, hb, hkb, hcr, Outcome.isPanic]
      · simpa [collectFundingTransactions, hb] using ih hmem2

/-- C10: `fetch_funding_rate_transactions` aborts instead of returning a
driver error: it panics whenever the account-bills fetch errs, and it panics
whenever some bill with type code 8 has an absent trade id or an absent
order id. -/
theorem funding_rate_fetch_panics (bills : List OkexBillResponse)
    (bill : OkexBillResponse) (e : DriverError)
    (exchange bot_id operation : String)
    (hmem : bill ∈ bills) (htype : bill.type_ = 8)
    (hmiss : bill.trade_id = none ∨ bill.order_id = none) :
    (fetch_funding_rate_transactions (.error e) exchange bot_id operation).isPanic
      = true
  ∧ (fetch_funding_rate_transactions (.ok bills) exchange bot_id operation).isPanic
      = true := by
  refine ⟨rfl, ?_⟩
  have hcoll :=
    collectFundingTransactions_panics exchange bot_id operation bill htype hmiss bills hmem
  cases hcr : collectFundingTransactions exchange bot_id operation bills with
  | ok ks =>
    rw [hcr] at hcoll
    simp [Outcome.isPanic] at hcoll
  | err e2 =>
    rw [hcr] at hcoll
    simp [Outcome.isPanic] at hcoll
  | panicked m =>
    simp [fetch_funding_rate_transactions, hcr, Outcome.isPanic]

theorem funding_rate_fetch_panics_witness :
    fundingBillExample ∈ [fundingBillExample]
  ∧ fundingBillExample.type_ = 8
  ∧ ((fetch_funding_rate_transactions (.error (.Generic "http down"))
        "okx" "bot" "funding").isPanic = true
    ∧ (fetch_funding_rate_transactions (.ok [fundingBillExample])
        "okx" "bot" "funding").isPanic = true) :=
  ⟨List.mem_cons_self fundingBillExample [], rfl,
    funding_rate_fetch_panics [fundingBillExample] fundingBillExample
      (.Generic "http down") "okx" "bot" "funding"
      (List.mem_cons_self fundingBillExample []) rfl (Or.inl rfl)⟩

end OkexDriver
